import Mathlib

/-!
Shallow embedding of `src/wtforms/ext/django/fields.py`
(class `QuerySetSelectField`) and proofs of the specified properties.

A Django model instance is modelled as an `Obj` carrying its primary key,
the value of the label attribute (the result of `getattr(obj, label_attr)`,
modelled as a string), its default textual form (`str(obj)`), and an
identity tag so that distinct objects may share other attributes.
A queryset is a `List Obj`.  The `queryset` attribute of a field is an
`Option (List Obj)`: `none` means the attribute was never assigned
(`__init__` skips the assignment when `queryset is None`), so touching it
raises `AttributeError`.  Exceptions (`AttributeError`, `ValueError` from
`int()`, `ValidationError`) are modelled with `Except PyErr`.
-/

namespace WTF

/-- A Django model instance as seen by the field: primary key, the value of
the label attribute, the default textual form, and an identity tag. -/
structure Obj where
  pk : Int
  label_attr_val : String
  str_ : String
  oid : Nat
deriving DecidableEq

/-- The Python exceptions the embedded code can raise. -/
inductive PyErr where
  /-- Accessing `self.queryset` when the attribute was never assigned. -/
  | attributeError : PyErr
  /-- Coercion `int(valuelist[0])` failing on a non-integer token. -/
  | valueError : PyErr
  /-- Error `ValidationError(msg)` raised by `pre_validate`. -/
  | validationError (msg : String) : PyErr
deriving DecidableEq

/-- Equality of `Except` results is decidable when both components are. -/
instance {ε α : Type} [DecidableEq ε] [DecidableEq α] :
    DecidableEq (Except ε α) := fun x y =>
  match x, y with
  | .error a, .error b =>
    if h : a = b then isTrue (h ▸ rfl)
    else isFalse (fun hc => h (Except.error.inj hc))
  | .error _, .ok _ => isFalse (fun hc => Except.noConfusion hc)
  | .ok _, .error _ => isFalse (fun hc => Except.noConfusion hc)
  | .ok a, .ok b =>
    if h : a = b then isTrue (h ▸ rfl)
    else isFalse (fun hc => h (Except.ok.inj hc))

/-- Models Python `int()` applied to a submitted token string: optional
surrounding whitespace, an optional sign, then one or more decimal digits;
anything else raises `ValueError` (here: `none`). -/
def pyInt (s : String) : Option Int :=
  let ws (c : Char) : Bool := c.isWhitespace
  let cs := ((s.toList.dropWhile ws).reverse.dropWhile ws).reverse
  let digits (ds : List Char) : Option Nat :=
    if ds ≠ [] ∧ ds.all Char.isDigit then
      some (ds.foldl (fun a c => 10 * a + (c.toNat - 48)) 0)
    else none
  match cs with
  | '-' :: rest => (digits rest).map (fun n => -(n : Int))
  | '+' :: rest => (digits rest).map (fun n => (n : Int))
  | _ => (digits cs).map (fun n => (n : Int))

/-- The state of a `QuerySetSelectField` instance: the constructor
arguments that are kept (`label_attr`, `allow_blank`), the private pair
`_data` / `_formdata`, and the `queryset` attribute (`none` when the
attribute was never assigned). -/
structure QuerySetSelectField where
  label_attr : String
  allow_blank : Bool
  _data : Option Obj
  _formdata : Option Int
  queryset : Option (List Obj)
deriving DecidableEq

namespace QuerySetSelectField

/-- Setter `_set_data(self, data)`: store `data` and clear the pending token. -/
def _set_data (f : QuerySetSelectField) (d : Option Obj) : QuerySetSelectField :=
  { f with _data := d, _formdata := none }

/-- Constructor `__init__`: store `label_attr` and `allow_blank`, call
`self._set_data(None)`, and assign `self.queryset = queryset.all()` only
when a queryset was supplied (`queryset.all()` on our list model is the
fresh copy itself). -/
def init (label_attr : String) (allow_blank : Bool)
    (queryset : Option (List Obj)) : QuerySetSelectField :=
  let f0 : QuerySetSelectField :=
    { label_attr := label_attr, allow_blank := allow_blank,
      _data := none, _formdata := none, queryset := none }
  let f1 := f0._set_data none
  match queryset with
  | none => f1
  | some qs => { f1 with queryset := some qs }

/-- Getter `_get_data(self)` of the `data` property: when a pending
token exists, scan `self.queryset` for the first object whose `pk` equals
the token; on a match call `_set_data(obj)` and break; then return
`self._data`.  Accessing `self.queryset` with the attribute unassigned
raises `AttributeError`.  Returns the value together with the
post-state. -/
def _get_data (f : QuerySetSelectField) :
    Except PyErr (Option Obj × QuerySetSelectField) :=
  match f._formdata with
  | none => .ok (f._data, f)
  | some fd =>
    match f.queryset with
    | none => .error .attributeError
    | some qs =>
      match qs.find? (fun obj => obj.pk == fd) with
      | some obj =>
        let fr := f._set_data (some obj)
        .ok (fr._data, fr)
      | none => .ok (f._data, f)

/-- Method `process_formdata(self, valuelist)`: on an empty list do nothing; if
the first token is the reserved blank marker assign `self.data = None`
(through the property setter); otherwise clear `self._data` and store
`int(valuelist[0])` as the pending token, a non-integer token raising
`ValueError`. -/
def process_formdata (f : QuerySetSelectField) (valuelist : List String) :
    Except PyErr QuerySetSelectField :=
  match valuelist with
  | [] => .ok f
  | v :: _ =>
    if v == "__None" then
      .ok (f._set_data none)
    else
      match pyInt v with
      | none => .error .valueError
      | some n => .ok { f with _data := none, _formdata := some n }

/-- The `for obj in self.queryset: if self.data == obj: break / else:
raise ValidationError('Not a valid choice')` loop of `pre_validate`.
`self.data` is re-evaluated (through the property getter) at each
iteration, so the state is threaded through. -/
def validate_scan (f : QuerySetSelectField) (qs : List Obj) :
    Except PyErr QuerySetSelectField :=
  match qs with
  | [] => .error (.validationError ("Not a valid choice"))
  | obj :: rest =>
    match f._get_data with
    | .error e => .error e
    | .ok (d, fr) =>
      if d == some obj then .ok fr else validate_scan fr rest

/-- Method `pre_validate(self, form)`: when blank is not allowed, or the current
value is not `None`, scan the queryset for an object equal to `self.data`
and raise `ValidationError('Not a valid choice')` when the scan finds
none.  `not self.allow_blank` short-circuits, so `self.data` is only
evaluated in the condition when `allow_blank` is true. -/
def pre_validate (f : QuerySetSelectField) : Except PyErr QuerySetSelectField :=
  if f.allow_blank then
    match f._get_data with
    | .error e => .error e
    | .ok (d, fr) =>
      if d.isSome then
        match fr.queryset with
        | none => .error .attributeError
        | some qs => validate_scan fr qs
      else .ok fr
  else
    match f.queryset with
    | none => .error .attributeError
    | some qs => validate_scan f qs

/-- One option as yielded by `__iter__`: the arguments the source passes
to `self._option(value, label, selected)`, with `value` and `label`
already taken to their rendered string form (`html_params` and the
`u'...%s...' % label` interpolation stringify them). -/
structure OptionTag where
  value : String
  label : String
  selected : Bool
deriving DecidableEq

/-- The `for obj in self.queryset` loop of `__iter__`: for each object,
`label = self.label_attr and getattr(obj, self.label_attr) or obj`
(Python truthiness: the attribute value is used only when both
`label_attr` and the value are non-empty, otherwise the object itself,
rendered as `str(obj)`), and the option is selected when
`obj == self.data`.  `self.data` is evaluated through the getter at each
iteration, so the state is threaded through. -/
def iter_objs (f : QuerySetSelectField) (qs : List Obj) :
    Except PyErr (List OptionTag × QuerySetSelectField) :=
  match qs with
  | [] => .ok ([], f)
  | obj :: rest =>
    match f._get_data with
    | .error e => .error e
    | .ok (d, fr) =>
      let label :=
        if fr.label_attr ≠ "" ∧ obj.label_attr_val ≠ "" then
          obj.label_attr_val
        else obj.str_
      match iter_objs fr rest with
      | .error e => .error e
      | .ok (opts, fr2) =>
        .ok (⟨toString obj.pk, label, d == some obj⟩ :: opts, fr2)

/-- Generator `__iter__`: when blank is allowed, first yield the reserved option
`('__None', '', self.data is None)`; then yield one option per object of
`self.queryset` in iteration order.  The generator is consumed fully, so
any exception raised along the way propagates. -/
def iter_options (f : QuerySetSelectField) :
    Except PyErr (List OptionTag × QuerySetSelectField) :=
  if f.allow_blank then
    match f._get_data with
    | .error e => .error e
    | .ok (d, fr) =>
      match fr.queryset with
      | none => .error .attributeError
      | some qs =>
        match iter_objs fr qs with
        | .error e => .error e
        | .ok (opts, fr2) => .ok (⟨"__None", "", d.isNone⟩ :: opts, fr2)
  else
    match f.queryset with
    | none => .error .attributeError
    | some qs => iter_objs f qs

/-- Modelled from the spec: `wtforms.widgets.html_params` is part of this
repository but not under `src/`; per the spec, attributes render as
`key="value"` pairs separated by spaces, in attribute-map insertion
order. -/
def html_params (attrs : List (String × String)) : String :=
  String.intercalate (" ") (attrs.map (fun kv => kv.1 ++ "=\"" ++ kv.2 ++ "\""))

/-- Method `_option(self, value, label, selected)`: build the markup
`<option value="...">label</option>`, adding `selected="selected"` when
the option is selected. -/
def _option (o : OptionTag) : String :=
  "<option " ++
    html_params ([("value", o.value)] ++
      (if o.selected then [("selected", "selected")] else [])) ++
    ">" ++ o.label ++ "</option>"

/-- Rendering `__call__(self, **kwargs)`: read `self.queryset.model._meta.pk.name`
(raising `AttributeError` when the `queryset` attribute is unassigned),
then emit `<select name=... id=...>`, each option of `__iter__`, and
`</select>`. -/
def render (f : QuerySetSelectField) (nm idStr : String) :
    Except PyErr (String × QuerySetSelectField) :=
  match f.queryset with
  | none => .error .attributeError
  | some _ =>
    match iter_options f with
    | .error e => .error e
    | .ok (opts, fr) =>
      .ok ("<select " ++ html_params [("name", nm), ("id", idStr)] ++ ">" ++
            String.join (opts.map _option) ++ "</select>", fr)

/-- The mutual-exclusion invariant: a pending raw token and a stored
resolved value never coexist (at most one of the two is present). -/
def Inv (f : QuerySetSelectField) : Prop :=
  f._formdata = none ∨ f._data = none

instance (f : QuerySetSelectField) : Decidable (Inv f) := by
  unfold Inv; infer_instance

/-- Concrete object with primary key 1 for the C1 behaviour check. -/
def exObjC1 : Obj := ⟨1, "", "a", 0⟩

/-- Field with `allow_blank = true` over the singleton queryset
`[exObjC1]`, before any submission. -/
def exFieldC1 : QuerySetSelectField := ⟨"", true, none, none, some [exObjC1]⟩

/-- State of `exFieldC1` after processing the submitted token `"2"`. -/
def exFieldC1p : QuerySetSelectField := ⟨"", true, none, some 2, some [exObjC1]⟩

/-- Concrete object with primary key 5 for the C2 witness. -/
def wObjC2 : Obj := ⟨5, "", "b", 0⟩

/-- Field over the singleton queryset `[wObjC2]` for the C2 witness. -/
def wFieldC2 : QuerySetSelectField := ⟨"", false, none, none, some [wObjC2]⟩

/-- Concrete object with primary key 7 for the C3 witness. -/
def wObjC3 : Obj := ⟨7, "", "c", 0⟩

/-- Field over `[wObjC3]` before submission, for the C3 witness. -/
def wFieldC3 : QuerySetSelectField := ⟨"", false, none, none, some [wObjC3]⟩

/-- State of `wFieldC3` after processing the token `"7"`: pending token 7. -/
def wFieldC3p : QuerySetSelectField := ⟨"", false, none, some 7, some [wObjC3]⟩

/-- State of `wFieldC3p` after the read resolves the pending token to `wObjC3`. -/
def wFieldC3r : QuerySetSelectField := ⟨"", false, some wObjC3, none, some [wObjC3]⟩

/-- Field with `allow_blank = true`, a pending token, and the `queryset`
attribute never assigned, for the C4 witness (validation after a blank
submission touches no queryset). -/
def wFieldC4 : QuerySetSelectField := ⟨"", true, none, some 9, none⟩

/-- Concrete object for the C5 witness. -/
def wObjC5 : Obj := ⟨3, "", "d", 0⟩

/-- Field with `allow_blank = false` over `[wObjC5]` for the C5 witness. -/
def wFieldC5 : QuerySetSelectField := ⟨"", false, none, none, some [wObjC5]⟩

/-- Field for the C6 witness. -/
def wFieldC6 : QuerySetSelectField := ⟨"", false, none, none, none⟩

/-- First object (primary key 1) for the C8 witness. -/
def wObjC8a : Obj := ⟨1, "", "x", 0⟩

/-- Second object (primary key 2) for the C8 witness. -/
def wObjC8b : Obj := ⟨2, "", "y", 1⟩

/-- Field whose resolved value is `wObjC8a`, over `[wObjC8a, wObjC8b]`,
for the C8 witness. -/
def wFieldC8 : QuerySetSelectField :=
  ⟨"", false, some wObjC8a, none, some [wObjC8a, wObjC8b]⟩

/-- Object whose label attribute value is the empty string (falsy in
Python) while its textual form is `"OBJ9"`, for the C9 counterexample. -/
def cObjC9 : Obj := ⟨1, "", "OBJ9", 0⟩

/-- Field with `label_attr = "name"` over `[cObjC9]`, for the C9
counterexample. -/
def cFieldC9 : QuerySetSelectField := ⟨"name", false, none, none, some [cObjC9]⟩

/-- Object with a non-empty label attribute value for the C9 witness. -/
def wObjC9 : Obj := ⟨2, "lbl", "txt", 0⟩

/-- Field with `label_attr = "name"` over `[wObjC9]` for the C9 witness. -/
def wFieldC9 : QuerySetSelectField := ⟨"name", false, none, none, some [wObjC9]⟩

/-- Field with a pending token and the `queryset` attribute never
assigned, for the C10 witness. -/
def wFieldC10a : QuerySetSelectField := ⟨"", false, none, some 3, none⟩

/-- Field with `allow_blank = false` and the `queryset` attribute never
assigned, for the C10 witness. -/
def wFieldC10b : QuerySetSelectField := ⟨"", false, none, none, none⟩

/-- Object held as the resolved value of `wFieldC10c`. -/
def wObjC10 : Obj := ⟨4, "", "e", 0⟩

/-- Field with `allow_blank = true`, a resolved value, and the `queryset`
attribute never assigned, for the C10 witness. -/
def wFieldC10c : QuerySetSelectField := ⟨"", true, some wObjC10, none, none⟩

/-- With no pending token the getter is a pure read of `_data`. -/
theorem getData_of_formdata_none {f : QuerySetSelectField}
    (h : f._formdata = none) : f._get_data = .ok (f._data, f) := by
  simp [_get_data, h]

/-- A successful read is stable: re-reading from the post-state returns the
same value and state, and the getter never touches `label_attr`,
`allow_blank` or `queryset`. -/
theorem getData_stable {f : QuerySetSelectField} {d : Option Obj}
    {f' : QuerySetSelectField} (h : f._get_data = .ok (d, f')) :
    f'._get_data = .ok (d, f') ∧ f'.label_attr = f.label_attr ∧
    f'.allow_blank = f.allow_blank ∧ f'.queryset = f.queryset := by
  cases hfd : f._formdata with
  | none =>
    rw [getData_of_formdata_none hfd] at h
    simp only [Except.ok.injEq, Prod.mk.injEq] at h
    obtain ⟨rfl, rfl⟩ := h
    exact ⟨getData_of_formdata_none hfd, rfl, rfl, rfl⟩
  | some fd =>
    cases hq : f.queryset with
    | none => simp [_get_data, hfd, hq] at h
    | some qs =>
      cases hfind : qs.find? (fun obj => obj.pk == fd) with
      | some obj =>
        simp only [_get_data, hfd, hq, hfind, _set_data,
          Except.ok.injEq, Prod.mk.injEq] at h
        obtain ⟨rfl, rfl⟩ := h
        simp [_get_data, _set_data]
      | none =>
        simp only [_get_data, hfd, hq, hfind,
          Except.ok.injEq, Prod.mk.injEq] at h
        obtain ⟨rfl, rfl⟩ := h
        simp [_get_data, hfd, hq, hfind]

/-- When the state holds neither a resolved value nor a pending token, the
`pre_validate` scan compares `None` with every object, never matches, and
raises the validation error. -/
theorem validate_scan_none (qs : List Obj) {f : QuerySetSelectField}
    (hfd : f._formdata = none) (hd : f._data = none) :
    validate_scan f qs = .error (.validationError ("Not a valid choice")) := by
  induction qs with
  | nil => rfl
  | cons obj rest ih =>
    simp [validate_scan, getData_of_formdata_none hfd, hd, ih]

/-- When the primary keys of the queryset are pairwise distinct, the
resolution scan for a member's key finds exactly that member. -/
theorem find_pk_unique {qs : List Obj} {o : Obj}
    (hnd : (qs.map Obj.pk).Nodup) (ho : o ∈ qs) :
    qs.find? (fun obj => obj.pk == o.pk) = some o := by
  induction qs with
  | nil => cases ho
  | cons a rest ih =>
    rw [List.map_cons, List.nodup_cons] at hnd
    rcases List.mem_cons.mp ho with rfl | hmem
    · simp [List.find?]
    · have hne : (a.pk == o.pk) = false := by
        refine beq_eq_false_iff_ne.mpr (fun hEq => ?_)
        exact hnd.1 (hEq ▸ List.mem_map_of_mem Obj.pk hmem)
      simp [List.find?, hne, ih hnd.2 hmem]

/-- The stateful option loop of `__iter__` is the pure map over the
queryset: each object yields the rendered primary key, the label computed
by the truthiness rule, and a selected flag comparing against the value
read on the first iteration; the final state is the getter's post-state
(or the initial state for an empty queryset). -/
theorem iter_objs_eq {f : QuerySetSelectField} {d : Option Obj}
    {f' : QuerySetSelectField} (h : f._get_data = .ok (d, f'))
    (qs : List Obj) :
    f.iter_objs qs = .ok (qs.map (fun obj =>
      ⟨toString obj.pk,
       if f.label_attr ≠ "" ∧ obj.label_attr_val ≠ "" then obj.label_attr_val
       else obj.str_,
       d == some obj⟩),
      if qs.isEmpty then f else f') := by
  induction qs generalizing f with
  | nil => simp [iter_objs]
  | cons obj rest ih =>
    obtain ⟨hstable, hla, _, _⟩ := getData_stable h
    have hrest := ih hstable
    rw [hla] at hrest
    simp [iter_objs, h, hrest, hla, ite_self]

/-- C1: the code's actual behaviour at the failing input.  With
`allow_blank = true`, a queryset whose only primary key is 1, and the
submitted integer token `"2"` (no object's key), processing succeeds with
a pending token and `pre_validate` then raises no error at all — the
unresolved token leaves `data` as `None`, and with blank allowed the
`None` value skips the membership scan — contradicting the claim (and the
class docstring) that validation fails with "Not a valid choice"
regardless of `allow_blank`. -/
theorem C1_code_behavior :
    exFieldC1.allow_blank = true ∧
    (List.map Obj.pk [exObjC1]).contains 2 = false ∧
    exFieldC1.process_formdata ["2"] = .ok exFieldC1p ∧
    exFieldC1p.pre_validate = .ok exFieldC1p := by decide

/-- C2: primary-key round trip.  Over a queryset with pairwise distinct
primary keys, processing a token that coerces to a member's primary key
and then reading `data` resolves to exactly that member. -/
theorem C2_pk_round_trip {f : QuerySetSelectField} {qs : List Obj} {o : Obj}
    {tok : String} (hq : f.queryset = some qs)
    (hnd : (qs.map Obj.pk).Nodup) (ho : o ∈ qs)
    (htok : pyInt tok = some o.pk) :
    ∃ f1 f2, f.process_formdata [tok] = .ok f1 ∧
      f1._get_data = .ok (some o, f2) ∧ f2._data = some o := by
  have hne : (tok == "__None") = false := by
    cases hbe : (tok == "__None") with
    | false => rfl
    | true =>
      rw [eq_of_beq hbe] at htok
      have h0 : pyInt ("__None") = none := by decide
      rw [h0] at htok
      cases htok
  have hfind : qs.find? (fun obj => obj.pk == o.pk) = some o :=
    find_pk_unique hnd ho
  refine ⟨{f with _data := none, _formdata := some o.pk},
          {f with _data := some o, _formdata := none}, ?_, ?_, rfl⟩
  · simp [process_formdata, hne, htok]
  · simp [_get_data, hq, hfind, _set_data]

/-- C2 witness: submitting `"5"` against the queryset `[wObjC2]` (primary
key 5) round-trips to `wObjC2`. -/
theorem C2_pk_round_trip_witness :
    ∃ f1 f2, wFieldC2.process_formdata ["5"] = .ok f1 ∧
      f1._get_data = .ok (some wObjC2, f2) ∧ f2._data = some wObjC2 :=
  C2_pk_round_trip rfl (by decide) (by decide) (by decide)

/-- C3: mutual exclusion of the resolved value and the pending token.
Construction establishes the invariant; input processing, direct
assignment, and the read re-establish or preserve it; direct assignment
unconditionally clears the pending token; a read that resolves a pending
token to an object stores it and clears the token. -/
theorem C3_mutual_exclusion :
    (∀ la ab qs, Inv (init la ab qs)) ∧
    (∀ (f : QuerySetSelectField) vl f', Inv f →
      f.process_formdata vl = .ok f' → Inv f') ∧
    (∀ (f : QuerySetSelectField) d, Inv (f._set_data d) ∧
      (f._set_data d)._formdata = none) ∧
    (∀ (f : QuerySetSelectField) d f', Inv f →
      f._get_data = .ok (d, f') → Inv f') ∧
    (∀ (f : QuerySetSelectField) (o : Obj) f', Inv f → f._formdata ≠ none →
      f._get_data = .ok (some o, f') →
      f'._data = some o ∧ f'._formdata = none) := by
  refine ⟨?_, ?_, ?_, ?_, ?_⟩
  · intro la ab qs
    cases qs <;> exact Or.inl rfl
  · intro f vl f' hInv hp
    cases vl with
    | nil =>
      simp only [process_formdata, Except.ok.injEq] at hp
      exact hp ▸ hInv
    | cons v rest =>
      simp only [process_formdata] at hp
      by_cases hv : v == "__None"
      · rw [if_pos hv] at hp
        injection hp with h
        exact h ▸ Or.inl rfl
      · rw [if_neg hv] at hp
        cases hpy : pyInt v with
        | none => rw [hpy] at hp; cases hp
        | some n =>
          rw [hpy] at hp
          injection hp with h
          exact h ▸ Or.inr rfl
  · intro f d
    exact ⟨Or.inl rfl, rfl⟩
  · intro f d f' hInv hg
    cases hfd : f._formdata with
    | none =>
      rw [getData_of_formdata_none hfd] at hg
      simp only [Except.ok.injEq, Prod.mk.injEq] at hg
      exact hg.2 ▸ hInv
    | some fd =>
      cases hq : f.queryset with
      | none => simp [_get_data, hfd, hq] at hg
      | some qs =>
        cases hfind : qs.find? (fun obj => obj.pk == fd) with
        | some obj =>
          simp only [_get_data, hfd, hq, hfind, _set_data,
            Except.ok.injEq, Prod.mk.injEq] at hg
          exact hg.2 ▸ Or.inl rfl
        | none =>
          simp only [_get_data, hfd, hq, hfind,
            Except.ok.injEq, Prod.mk.injEq] at hg
          exact hg.2 ▸ hInv
  · intro f o f' hInv hfd hg
    cases hfd2 : f._formdata with
    | none => exact absurd hfd2 hfd
    | some fd =>
      have hdn : f._data = none := hInv.resolve_left (by simp [hfd2])
      cases hq : f.queryset with
      | none => simp [_get_data, hfd2, hq] at hg
      | some qs =>
        cases hfind : qs.find? (fun obj => obj.pk == fd) with
        | some obj =>
          simp only [_get_data, hfd2, hq, hfind, _set_data,
            Except.ok.injEq, Prod.mk.injEq] at hg
          obtain ⟨h1, rfl⟩ := hg
          exact ⟨h1, rfl⟩
        | none =>
          simp only [_get_data, hfd2, hq, hfind,
            Except.ok.injEq, Prod.mk.injEq] at hg
          obtain ⟨h1, rfl⟩ := hg
          rw [hdn] at h1
          cases h1

/-- C3 witness: processing the token `"7"` from a fresh field yields a
state satisfying the invariant, and the subsequent read resolves the
pending token to `wObjC3`, storing it and clearing the token. -/
theorem C3_mutual_exclusion_witness :
    Inv wFieldC3p ∧ (wFieldC3r._data = some wObjC3 ∧ wFieldC3r._formdata = none) :=
  ⟨C3_mutual_exclusion.2.1 wFieldC3 ["7"] wFieldC3p (by decide) (by decide),
   C3_mutual_exclusion.2.2.2.2 wFieldC3p wObjC3 wFieldC3r (by decide)
     (by decide) (by decide)⟩

/-- C4: with `allow_blank = true`, processing the reserved token
`"__None"` assigns `data = None` through the setter, so the value is
absent, and `pre_validate` then succeeds with no error — and since the
field here is arbitrary (its `queryset` attribute may even be unassigned),
the scan of the collection is never reached. -/
theorem C4_blank_allowed {f : QuerySetSelectField} {rest : List String}
    (hb : f.allow_blank = true) :
    f.process_formdata ("__None" :: rest) = .ok (f._set_data none) ∧
    (f._set_data none)._data = none ∧
    (f._set_data none).pre_validate = .ok (f._set_data none) := by
  refine ⟨by simp [process_formdata], rfl, ?_⟩
  simp [pre_validate, _set_data, hb, _get_data]

/-- C4 witness: `wFieldC4` has `allow_blank = true` and no `queryset`
attribute at all, yet the blank submission validates cleanly. -/
theorem C4_blank_allowed_witness :
    wFieldC4.process_formdata ["__None"] = .ok (wFieldC4._set_data none) ∧
    (wFieldC4._set_data none)._data = none ∧
    (wFieldC4._set_data none).pre_validate = .ok (wFieldC4._set_data none) :=
  C4_blank_allowed rfl

/-- C5: with `allow_blank = false`, processing the reserved token
`"__None"` still leaves the value absent, and validation then scans the
queryset, compares `None` with every object (never equal), and raises
`ValidationError "Not a valid choice"`. -/
theorem C5_blank_disallowed {f : QuerySetSelectField} {qs : List Obj}
    {rest : List String} (hb : f.allow_blank = false)
    (hq : f.queryset = some qs) :
    f.process_formdata ("__None" :: rest) = .ok (f._set_data none) ∧
    (f._set_data none)._data = none ∧
    (f._set_data none).pre_validate =
      .error (.validationError ("Not a valid choice")) := by
  refine ⟨by simp [process_formdata], rfl, ?_⟩
  simp [pre_validate, _set_data, hb, hq]
  exact validate_scan_none qs rfl rfl

/-- C5 witness: the blank submission against `wFieldC5` (blank not
allowed, queryset `[wObjC5]`) fails validation. -/
theorem C5_blank_disallowed_witness :
    wFieldC5.process_formdata ["__None"] = .ok (wFieldC5._set_data none) ∧
    (wFieldC5._set_data none)._data = none ∧
    (wFieldC5._set_data none).pre_validate =
      .error (.validationError ("Not a valid choice")) :=
  C5_blank_disallowed rfl rfl

/-- C6: a first token that is neither the reserved blank marker nor an
integer string makes `int(valuelist[0])` raise, so input processing
surfaces the coercion error to the caller; no successfully processed
state exists, so the field's custom validation is never reached. -/
theorem C6_coercion_error {f : QuerySetSelectField} {tok : String}
    {rest : List String} (hnb : tok ≠ "__None") (hint : pyInt tok = none) :
    f.process_formdata (tok :: rest) = .error .valueError := by
  have hne : (tok == "__None") = false := beq_eq_false_iff_ne.mpr hnb
  simp [process_formdata, hne, hint]

/-- C6 witness: the token `"abc"` fails coercion. -/
theorem C6_coercion_error_witness :
    wFieldC6.process_formdata ["abc"] = .error .valueError :=
  C6_coercion_error (by decide) (by decide)

/-- C7: processing an empty submitted value list returns the whole field
state unchanged — in particular `_data` and `_formdata` keep their
previous values. -/
theorem C7_empty_valuelist (f : QuerySetSelectField) :
    f.process_formdata [] = .ok f := rfl

/-- C8: with blank disallowed, iterating the field yields exactly one
option per queryset object, whose tokens are the objects' primary keys in
the queryset's own order, and when the field's current value equals
exactly one member of the queryset exactly one option is selected. -/
theorem C8_option_list {f : QuerySetSelectField} {qs : List Obj}
    {d : Option Obj} {f' : QuerySetSelectField}
    (hb : f.allow_blank = false) (hq : f.queryset = some qs)
    (hd : f._get_data = .ok (d, f'))
    (hone : qs.countP (fun obj => d == some obj) = 1) :
    ∃ opts fr, f.iter_options = .ok (opts, fr) ∧
      opts.length = qs.length ∧
      opts.map OptionTag.value = qs.map (fun obj => toString obj.pk) ∧
      opts.countP OptionTag.selected = 1 := by
  have hiter := iter_objs_eq hd qs
  refine ⟨qs.map (fun obj =>
      ⟨toString obj.pk,
       if f.label_attr ≠ "" ∧ obj.label_attr_val ≠ "" then obj.label_attr_val
       else obj.str_,
       d == some obj⟩),
    if qs.isEmpty then f else f', ?_, ?_, ?_, ?_⟩
  · have hopt : f.iter_options = f.iter_objs qs := by
      simp [iter_options, hb, hq]
    rw [hopt]
    exact hiter
  · simp
  · rw [List.map_map]
    exact rfl
  · rw [List.countP_map]
    exact hone

/-- C8 witness: over the two-object queryset of `wFieldC8`, whose resolved
value is its first object, iteration yields two options with the keys in
order and exactly one selected. -/
theorem C8_option_list_witness :
    ∃ opts fr, wFieldC8.iter_options = .ok (opts, fr) ∧
      opts.length = [wObjC8a, wObjC8b].length ∧
      opts.map OptionTag.value =
        [wObjC8a, wObjC8b].map (fun obj => toString obj.pk) ∧
      opts.countP OptionTag.selected = 1 :=
  @C8_option_list wFieldC8 [wObjC8a, wObjC8b] (some wObjC8a) wFieldC8
    rfl rfl (by decide) (by decide)

/-- C9 counterexample: `cFieldC9` has `label_attr = "name"` set, yet the
option rendered for `cObjC9` — whose label attribute value is the empty
string — carries the label `"OBJ9"` (the object's textual form), not the
attribute's value, because Python's `a and b or c` idiom falls through on
a falsy attribute value.  This refutes the claim that the label is the
labelAttribute's value whenever a labelAttribute is set. -/
theorem C9_counterexample :
    cFieldC9.label_attr = "name" ∧ cObjC9.label_attr_val = "" ∧
    cFieldC9.iter_options = .ok ([⟨"1", "OBJ9", false⟩], cFieldC9) ∧
    ("OBJ9" : String) ≠ "" := by decide

/-- C9 amended: every object of the queryset yields an option whose token
is the object's primary key, whose label is the label attribute's value
when `label_attr` is set and that value is non-empty — otherwise the
object's textual form — and which is selected iff the object equals the
current resolved value. -/
theorem C9_option_contents {f : QuerySetSelectField} {qs : List Obj}
    {d : Option Obj} {f' : QuerySetSelectField}
    (_hq : f.queryset = some qs) (hd : f._get_data = .ok (d, f')) :
    ∃ fr, f.iter_objs qs = .ok (qs.map (fun obj =>
        ⟨toString obj.pk,
         if f.label_attr ≠ "" ∧ obj.label_attr_val ≠ "" then obj.label_attr_val
         else obj.str_,
         d == some obj⟩), fr) ∧
      ∀ obj ∈ qs, ((d == some obj) = true ↔ d = some obj) := by
  refine ⟨_, iter_objs_eq hd qs, ?_⟩
  intro obj _
  exact beq_iff_eq

/-- C9 witness: the amended statement at the one-object queryset of
`wFieldC9`, whose resolved value is absent. -/
theorem C9_option_contents_witness :
    ∃ fr, wFieldC9.iter_objs [wObjC9] = .ok ([wObjC9].map (fun obj =>
        ⟨toString obj.pk,
         if wFieldC9.label_attr ≠ "" ∧ obj.label_attr_val ≠ "" then
           obj.label_attr_val
         else obj.str_,
         (none : Option Obj) == some obj⟩), fr) ∧
      ∀ obj ∈ [wObjC9],
        (((none : Option Obj) == some obj) = true ↔
          (none : Option Obj) = some obj) :=
  @C9_option_contents wFieldC9 [wObjC9] none wFieldC9 rfl rfl

/-- C10: constructing with `queryset = None` leaves the `queryset`
attribute unassigned (`none`, not an empty collection), and every
operation that scans the collection then raises `AttributeError`: the
read with a pending token, validation when blank is disallowed,
validation when the value is present, and rendering. -/
theorem C10_unset_queryset :
    (∀ la ab, (init la ab none).queryset = none) ∧
    (∀ (f : QuerySetSelectField) fd, f.queryset = none →
      f._formdata = some fd → f._get_data = .error .attributeError) ∧
    (∀ (f : QuerySetSelectField), f.queryset = none → f.allow_blank = false →
      f.pre_validate = .error .attributeError) ∧
    (∀ (f : QuerySetSelectField) (o : Obj), f.queryset = none →
      f.allow_blank = true → f._data = some o → f._formdata = none →
      f.pre_validate = .error .attributeError) ∧
    (∀ (f : QuerySetSelectField) nm idStr, f.queryset = none →
      f.render nm idStr = .error .attributeError) := by
  refine ⟨?_, ?_, ?_, ?_, ?_⟩
  · intro la ab; rfl
  · intro f fd hq hfd
    simp [_get_data, hfd, hq]
  · intro f hq hb
    simp [pre_validate, hb, hq]
  · intro f o hq hb hd hfd
    simp [pre_validate, hb, getData_of_formdata_none hfd, hd, hq]
  · intro f nm idStr hq
    simp [render, hq]

/-- C10 witness: the construction clause and the four failure clauses at
concrete fields whose `queryset` attribute was never assigned. -/
theorem C10_unset_queryset_witness :
    (init ("x") true none).queryset = none ∧
    wFieldC10a._get_data = .error .attributeError ∧
    wFieldC10b.pre_validate = .error .attributeError ∧
    wFieldC10c.pre_validate = .error .attributeError ∧
    wFieldC10b.render ("n") ("i") = .error .attributeError :=
  ⟨C10_unset_queryset.1 ("x") true,
   C10_unset_queryset.2.1 wFieldC10a 3 rfl rfl,
   C10_unset_queryset.2.2.1 wFieldC10b rfl rfl,
   C10_unset_queryset.2.2.2.1 wFieldC10c wObjC10 rfl rfl rfl rfl,
   C10_unset_queryset.2.2.2.2 wFieldC10b ("n") ("i") rfl⟩

end QuerySetSelectField

end WTF
